import Mathlib

/-!
Verification of the Plex status/log reporting channel (`plex.c`) and the
patched WebVTT muxer header (`libavformat/webvttenc.c`).

The C sources are shallowly embedded: machine integers become `Int`/`Nat`
(C integer division is truncation toward zero, modelled with `Int.tdiv`),
byte buffers become `List Char`, network and allocation effects become an
explicit oracle record, and per-thread mutable state becomes explicit
state passing.
-/

namespace Plex

/-! ## Constants from the sources -/

/-- `AV_LOG_QUIET` from libavutil/log.h: the sentinel threshold that turns
reporting off entirely (checked in `PMS_Log`). -/
def AV_LOG_QUIET : Int := -8

/-- `AV_LOG_ERROR` from libavutil/log.h. -/
def AV_LOG_ERROR : Int := 16

/-- `LOG_LINE_SIZE` from plex.c line 66: capacity (including the
terminating NUL byte) of the per-thread log-line buffer. -/
def LOG_LINE_SIZE : Nat := 1024

/-- Modelled from the spec: `LOG_LEVEL_ERROR` is declared in `plex.h`,
which is not part of this tree. The spec states that internal errors and
worse map to the Reporter's ERROR level while less severe levels map to
`level / 8 - 2`; at the boundary `AV_LOG_ERROR = 16` the code computes
`16 / 8 - 2 = 0`, so the Reporter scale has ERROR = 0 (then WARNING = 1,
INFO = 2, VERBOSE = 3, DEBUG = 4). -/
def LOG_LEVEL_ERROR : Int := 0

/-- The severity mapping applied at plex.c line 251:
`level < AV_LOG_ERROR ? LOG_LEVEL_ERROR : (level / 8) - 2`.
C `/` on int truncates toward zero, hence `Int.tdiv`. -/
def plex_map_level (level : Int) : Int :=
  if level < AV_LOG_ERROR then LOG_LEVEL_ERROR else level.tdiv 8 - 2

/-! ## Severity gates (plex.c lines 183-184 and 222-223) -/

/-- The filter at the top of `plex_log_callback` (line 222):
`if (level > av_log_level_plex) return;` — the event passes when it does
not exceed the configured threshold. -/
def plex_callback_severity_pass (level T : Int) : Bool :=
  !(level > T)

/-- The gate at the top of `PMS_Log` (line 183):
`if (av_log_level_plex == AV_LOG_QUIET) return;` — reporting proceeds only
when the threshold is not the quiet sentinel. -/
def PMS_Log_enabled (T : Int) : Bool :=
  !(T == AV_LOG_QUIET)

/-- An event survives into the reporting path exactly when it passes both
gates, in the order the code applies them. -/
def reaches_reporting_path (level T : Int) : Bool :=
  plex_callback_severity_pass level T && PMS_Log_enabled T

/-! ## The log aggregator (plex.c `plex_log_callback` + `PMS_Log`) -/

/-- `av_strlcat(dst, src, size)` from libavutil/avstring.c: append `src`
to `dst`, truncating so that the stored string never exceeds `size - 1`
characters (one byte of the buffer is reserved for the NUL terminator).
If `dst` already fills the buffer nothing is appended. -/
def av_strlcat (dst src : List Char) (size : Nat) : List Char :=
  if dst.length < size then dst ++ src.take (size - 1 - dst.length) else dst

/-- `PMS_Log(level, fmt, ...)` (plex.c lines 176-202) reduced to its
submission effect: if the threshold is the quiet sentinel nothing is
submitted (line 183, before any URL building or network I/O); otherwise
exactly one `/log` request carrying the level and the message text is
attempted. -/
def PMS_Log (T : Int) (level : Int) (msg : List Char) : List (Int × List Char) :=
  if T = AV_LOG_QUIET then [] else [(level, msg)]

/-- Per-thread aggregator state: the `cur_line_key` buffer contents (up to
the NUL) and the `logging_key` reentrancy flag. -/
structure ThreadLogState where
  cur_line : List Char
  logging : Bool
deriving DecidableEq

/-- Effect of one `plex_log_callback` invocation: the events forwarded to
`av_log_default_callback` (the local sink), the `/log` submissions
attempted via `PMS_Log`, and the successor per-thread state. -/
structure CallbackResult where
  sink : List (Int × List Char)
  submissions : List (Int × List Char)
  state : ThreadLogState
deriving DecidableEq

/-- `plex_log_callback` (plex.c lines 205-261) for one thread.

`frag` is the fragment produced by `av_log_format_line` for this event
(formatting itself is library code outside this tree); per that function's
contract the `print_prefix` output flag — "line complete" — is set exactly
when the formatted fragment ends in `'\n'`.

Order of operations, as in the source: forward to the default sink
unconditionally (line 220); drop from the reporting path if the severity
exceeds the threshold (line 222); drop if the thread is already inside the
aggregator (line 227); append the fragment to the per-thread buffer with
`av_strlcat` (line 246); if the line is complete and non-empty, strip the
final character, submit via `PMS_Log` with the mapped severity, and reset
the buffer (lines 247-253). -/
def plex_log_callback (T : Int) (st : ThreadLogState) (level : Int)
    (frag : List Char) : CallbackResult :=
  let sink := [(level, frag)]
  if level > T then
    ⟨sink, [], st⟩
  else if st.logging then
    ⟨sink, [], st⟩
  else
    let cur := av_strlcat st.cur_line frag LOG_LINE_SIZE
    if frag.getLast? = some '\n' then
      if cur.length ≠ 0 then
        ⟨sink, PMS_Log T (plex_map_level level) cur.dropLast, ⟨[], st.logging⟩⟩
      else
        ⟨sink, [], ⟨cur, st.logging⟩⟩
    else
      ⟨sink, [], ⟨cur, st.logging⟩⟩

/-- Run a sequence of log-hook invocations `(level, fragment)` on one
thread, collecting every `/log` submission in order. -/
def run_callbacks (T : Int) (st : ThreadLogState) :
    List (Int × List Char) → List (Int × List Char) × ThreadLogState
  | [] => ([], st)
  | (l, f) :: rest =>
    let r := plex_log_callback T st l f
    let (subs, fin) := run_callbacks T r.state rest
    (r.submissions ++ subs, fin)

/-! ## The HTTP Reporter (`PMS_IssueHttpRequest`, plex.c lines 95-174) -/

/-- Shared reporter state: the static `ioctx` handle (a connection id, or
none) guarded by `req_mutex`; `nextConn` supplies fresh ids for newly
opened connections. -/
structure HttpState where
  ioctx : Option Nat
  nextConn : Nat
deriving DecidableEq

/-- Outcomes of the external transport calls made during one invocation:
`reuseOk` is whether `avformat_http_do_new_request` succeeds on the stored
connection, `openOk` whether `avio_open2` succeeds, `ioSize` the
`avio_size` result (negative when unknown), `mallocOk` whether the reply
allocation succeeds, and `readRet` the `avio_read` result (bytes read, or
negative on failure). -/
structure HttpOracle where
  reuseOk : Bool
  openOk : Bool
  ioSize : Int
  mallocOk : Bool
  readRet : Int
deriving DecidableEq

/-- Network operations performed on the transport, recorded in order. -/
inductive NetOp where
  | reuse (c : Nat)
  | openConn (c : Nat)
  | read (c : Nat)
deriving DecidableEq

/-- The body of `PMS_IssueHttpRequest` after a connection `c` is live
(plex.c lines 143-163): determine the read bound from `avio_size` (falling
back to 4095 when unknown), allocate the reply, read it; an allocation or
read failure takes the `fail` path, which closes the connection
(`avio_closep`) and frees the reply, returning NULL. -/
def http_request_body (o : HttpOracle) (c : Nat) (st : HttpState)
    (tr : List NetOp) : Option Nat × HttpState × List NetOp :=
  let size : Int := if o.ioSize < 0 then 4095 else o.ioSize
  if !o.mallocOk then
    (none, { st with ioctx := none }, tr)
  else if o.readRet < 0 then
    (none, { st with ioctx := none }, tr ++ [NetOp.read c])
  else
    let _ := size
    (some o.readRet.toNat, st, tr ++ [NetOp.read c])

/-- `PMS_IssueHttpRequest(url, verb)` (plex.c lines 95-174). `usingHttp`
is this thread's `using_http_key` flag: when already set the call returns
NULL at once (lines 110-111) without touching the shared state or the
network. Otherwise, under the mutex: if a connection is stored, try to
reuse it and discard it on failure (lines 121-125); if no usable
connection remains, open a fresh one and take the `fail` path if that
fails (lines 127-141); then read the reply (lines 143-163). The reply is
abstracted to its byte count. -/
def PMS_IssueHttpRequest (usingHttp : Bool) (st : HttpState)
    (o : HttpOracle) : Option Nat × HttpState × List NetOp :=
  if usingHttp then
    (none, st, [])
  else
    let afterReuse : Option Nat × List NetOp :=
      match st.ioctx with
      | some c => if o.reuseOk then (some c, [NetOp.reuse c]) else (none, [NetOp.reuse c])
      | none => (none, [])
    match afterReuse with
    | (some c, tr) => http_request_body o c { st with ioctx := some c } tr
    | (none, tr) =>
      if o.openOk then
        http_request_body o st.nextConn
          { ioctx := some st.nextConn, nextConn := st.nextConn + 1 }
          (tr ++ [NetOp.openConn st.nextConn])
      else
        (none, { st with ioctx := none }, tr)

/-! ## Stream notifiers (plex.c lines 263-389) -/

/-- `AVMediaType` values distinguished by the notifier guards. -/
inductive AVMediaType where
  | video
  | audio
  | subtitle
  | attachment
  | other
deriving DecidableEq

/-- `AV_DISPOSITION_ATTACHED_PIC` from libavformat/avformat.h (1 << 10). -/
def AV_DISPOSITION_ATTACHED_PIC : Nat := 1024

/-- The stream fields consulted by the notifier guards:
`codecpar->codec_type`, `disposition`, and the `FFStream` decoded-frame
counter `codec_info_nb_frames_total`. -/
structure AVStream where
  codec_type : AVMediaType
  disposition : Nat
  codec_info_nb_frames_total : Nat
deriving DecidableEq

/-- Guard structure of `plex_report_stream` (plex.c lines 263-286),
reduced to whether `PMS_IssueHttpRequest` is invoked: a request is issued
iff a progress URL is configured, the stream is video or audio, and the
stream is not disposed as an attached picture. -/
def plex_report_stream (progress_url : Option (List Char)) (st : AVStream) : Bool :=
  progress_url.isSome &&
    (st.codec_type == AVMediaType.video || st.codec_type == AVMediaType.audio) &&
    (st.disposition &&& AV_DISPOSITION_ATTACHED_PIC == 0)

/-- Guard structure of `plex_report_stream_detail` (plex.c lines 288-389),
reduced to whether `PMS_IssueHttpRequest` is invoked: an audio or video
stream with zero decoded frames returns early (lines 292-295); otherwise a
request is issued iff a progress URL is configured, the stream is video,
audio, or subtitle, and it is not disposed as an attached picture
(lines 297-301). -/
def plex_report_stream_detail (progress_url : Option (List Char)) (st : AVStream) : Bool :=
  if (st.codec_type == AVMediaType.audio || st.codec_type == AVMediaType.video) &&
      st.codec_info_nb_frames_total == 0 then
    false
  else
    progress_url.isSome &&
      (st.codec_type == AVMediaType.video || st.codec_type == AVMediaType.audio ||
        st.codec_type == AVMediaType.subtitle) &&
      (st.disposition &&& AV_DISPOSITION_ATTACHED_PIC == 0)

end Plex

namespace WebVTT

/-- Codec ids as far as the WebVTT muxer distinguishes them. -/
inductive AVCodecID where
  | webvtt
  | other (n : Nat)
deriving DecidableEq

/-- `AVERROR(EINVAL)` = -22 on the platforms this tree targets. -/
def AVERROR_EINVAL : Int := -22

/-- Zero-pad a digit string to width `w`, as printf's `%0*` does. -/
def zeroPad (w : Nat) (s : String) : String :=
  if s.length < w then String.mk (List.replicate (w - s.length) '0') ++ s else s

/-- `%0*PRId64` of an `Int`: the sign is emitted first and counts toward
the field width, the absolute value is zero-padded to fill it. -/
def intPad (w : Nat) (n : Int) : String :=
  if n < 0 then "-" ++ zeroPad (w - 1) (toString n.natAbs) else zeroPad w (toString n.natAbs)

/-- `webvtt_write_time` (webvttenc.c lines 43-57): split a millisecond
count into hour/min/sec/ms with C integer division (truncation toward
zero) and print `hh:mm:ss.mmm`. The Plex patch removed the `if (hour > 0)`
guard, so the hours field is always emitted, zero included. -/
def webvtt_write_time (millisec : Int) : String :=
  let sec := millisec.tdiv 1000
  let ms := millisec - 1000 * sec
  let mn := sec.tdiv 60
  let sec2 := sec - 60 * mn
  let hour := mn.tdiv 60
  let mn2 := mn - 60 * hour
  intPad 2 hour ++ ":" ++ intPad 2 mn2 ++ ":" ++ intPad 2 sec2 ++ "." ++ intPad 3 ms

/-- `WebVTTMuxContext` (webvttenc.c lines 36-40). `sync_vtt` is stored as
a float and passed to `webvtt_write_time` as `sync_vtt * 1000` truncated
to int64; the context carries that derived millisecond value. -/
structure WebVTTMuxContext where
  sync_vtt_ms : Int
  sync_mpeg : Int
deriving DecidableEq

/-- Option defaults from the `options` table (webvttenc.c lines 130-134):
`sync_vtt` defaults to 0 (hence 0 ms) and `sync_mpeg` to 900000. -/
def webvtt_default_context : WebVTTMuxContext :=
  { sync_vtt_ms := 0, sync_mpeg := 900000 }

/-- `webvtt_write_header` (webvttenc.c lines 59-84): the muxer context is
reduced to its stream codec list and private options; the result is the
return code and the bytes written to `pb`. With anything but exactly one
WebVTT stream it logs an error and returns `AVERROR(EINVAL)`; otherwise it
writes `WEBVTT`, the `X-TIMESTAMP-MAP` line (`,MPEGTS:` uses `%02PRId64`),
and a blank separator line, and returns 0. -/
def webvtt_write_header (streams : List AVCodecID) (priv : WebVTTMuxContext) :
    Int × String :=
  if streams.length ≠ 1 ∨ streams.head? ≠ some AVCodecID.webvtt then
    (AVERROR_EINVAL, "")
  else
    (0, "WEBVTT\n" ++ "X-TIMESTAMP-MAP=LOCAL:" ++ webvtt_write_time priv.sync_vtt_ms
        ++ ",MPEGTS:" ++ intPad 2 priv.sync_mpeg ++ "\n" ++ "\n")

end WebVTT

/-! ## Helper lemmas -/

namespace Plex

theorem getLast?_mem {α : Type} : ∀ (l : List α) (a : α), l.getLast? = some a → a ∈ l
  | [], a, h => by simp [List.getLast?] at h
  | [b], a, h => by
    simp [List.getLast?] at h
    simp [h]
  | b :: c :: t, a, h => by
    rw [List.getLast?_cons_cons] at h
    exact List.mem_cons_of_mem b (getLast?_mem (c :: t) a h)

/-- When the combined content fits in the buffer, `av_strlcat` is plain
concatenation. -/
theorem av_strlcat_exact (dst src : List Char)
    (h : (dst ++ src).length ≤ LOG_LINE_SIZE - 1) :
    av_strlcat dst src LOG_LINE_SIZE = dst ++ src := by
  simp only [List.length_append, LOG_LINE_SIZE] at h
  unfold av_strlcat LOG_LINE_SIZE
  rw [if_pos (by omega)]
  congr 1
  exact List.take_of_length_le (by omega)

/-- `av_strlcat` never grows the stored line beyond the buffer capacity
minus the NUL byte. -/
theorem av_strlcat_length (dst src : List Char)
    (h : dst.length ≤ LOG_LINE_SIZE - 1) :
    (av_strlcat dst src LOG_LINE_SIZE).length ≤ LOG_LINE_SIZE - 1 := by
  unfold av_strlcat LOG_LINE_SIZE at *
  split_ifs with hlt
  · simp only [List.length_append, List.length_take]
    omega
  · exact h

/-- A callback invocation on a passing severity whose fragment does not
end the line only accumulates. -/
theorem plex_log_callback_no_newline (T lvl : Int) (buf frag : List Char)
    (hlvl : lvl ≤ T) (hfrag : '\n' ∉ frag) :
    plex_log_callback T ⟨buf, false⟩ lvl frag =
      ⟨[(lvl, frag)], [], ⟨av_strlcat buf frag LOG_LINE_SIZE, false⟩⟩ := by
  have h2 : ¬ (frag.getLast? = some '\n') := fun h => hfrag (getLast?_mem _ _ h)
  simp [plex_log_callback, not_lt.mpr hlvl, h2]

/-- A callback invocation on a passing severity whose fragment ends the
line submits the stripped accumulated line and resets the buffer. -/
theorem plex_log_callback_newline (T lvl : Int) (buf frag : List Char)
    (hlvl : lvl ≤ T) (hlast : frag.getLast? = some '\n')
    (hfit : (buf ++ frag).length ≤ LOG_LINE_SIZE - 1) :
    plex_log_callback T ⟨buf, false⟩ lvl frag =
      ⟨[(lvl, frag)], PMS_Log T (plex_map_level lvl) (buf ++ frag).dropLast,
        ⟨[], false⟩⟩ := by
  have hne : frag ≠ [] := by
    intro h
    rw [h] at hlast
    simp [List.getLast?] at hlast
  have hlen : (buf ++ frag).length ≠ 0 := by
    simp only [List.length_append]
    have : frag.length ≠ 0 := fun h => hne (List.length_eq_zero.mp h)
    omega
  simp [plex_log_callback, not_lt.mpr hlvl, hlast, av_strlcat_exact buf frag hfit, hlen]
  exact fun _ h => absurd h hne

/-- `run_callbacks` distributes over concatenation of event lists. -/
theorem run_callbacks_append (T : Int) :
    ∀ (a b : List (Int × List Char)) (st : ThreadLogState),
      run_callbacks T st (a ++ b) =
        ((run_callbacks T st a).1 ++ (run_callbacks T (run_callbacks T st a).2 b).1,
          (run_callbacks T (run_callbacks T st a).2 b).2)
  | [], b, st => by simp [run_callbacks]
  | (l, f) :: rest, b, st => by
    simp only [List.cons_append, run_callbacks, List.append_eq]
    rw [run_callbacks_append T rest b]
    simp

/-- Running line fragments (no terminator, passing severity) from a clean
reentrancy flag submits nothing and concatenates into the buffer, as long
as everything fits. -/
theorem run_callbacks_fragments (T lvl : Int) (hlvl : lvl ≤ T) :
    ∀ (fs : List (List Char)) (buf : List Char),
      (∀ f ∈ fs, '\n' ∉ f) →
      (buf ++ fs.flatten).length ≤ LOG_LINE_SIZE - 1 →
      run_callbacks T ⟨buf, false⟩ (fs.map (fun f => (lvl, f))) =
        ([], ⟨buf ++ fs.flatten, false⟩)
  | [], buf, _, _ => by simp [run_callbacks]
  | f :: fs, buf, hfs, hfit => by
    have hf : '\n' ∉ f := hfs f (List.mem_cons_self f fs)
    have hfit' : (buf ++ f ++ fs.flatten).length ≤ LOG_LINE_SIZE - 1 := by
      simp only [List.flatten_cons, List.length_append, LOG_LINE_SIZE] at hfit ⊢
      omega
    have hfit'' : (buf ++ f).length ≤ LOG_LINE_SIZE - 1 := by
      simp only [List.length_append, LOG_LINE_SIZE] at hfit' ⊢
      omega
    simp only [List.map_cons, run_callbacks,
      plex_log_callback_no_newline T lvl buf f hlvl hf,
      av_strlcat_exact buf f hfit'']
    rw [run_callbacks_fragments T lvl hlvl fs (buf ++ f)
      (fun x hx => hfs x (List.mem_cons_of_mem f hx)) hfit']
    simp [List.flatten_cons, List.append_assoc]

/-! ## Claim theorems -/

/-- C1: a log event of severity S reaches the reporting path iff `S ≤ T`
and the threshold T is not the quiet sentinel; events failing either gate
produce no `/log` submission from the hook. -/
theorem C1_severity_gate (S T : Int) :
    (reaches_reporting_path S T = true ↔ (S ≤ T ∧ T ≠ AV_LOG_QUIET)) ∧
    (reaches_reporting_path S T = false →
      ∀ (st : ThreadLogState) (frag : List Char),
        (plex_log_callback T st S frag).submissions = []) := by
  have hiff : reaches_reporting_path S T = true ↔ (S ≤ T ∧ T ≠ AV_LOG_QUIET) := by
    simp [reaches_reporting_path, plex_callback_severity_pass, PMS_Log_enabled, not_lt]
  refine ⟨hiff, ?_⟩
  intro h st frag
  have h' : S > T ∨ T = AV_LOG_QUIET := by
    by_cases hq : T = AV_LOG_QUIET
    · exact Or.inr hq
    · left
      by_contra hs
      rw [hiff.mpr ⟨not_lt.mp hs, hq⟩] at h
      simp at h
  unfold plex_log_callback
  rcases h' with hgt | hq
  · simp [hgt]
  · dsimp only
    split_ifs <;> simp [PMS_Log, hq]

/-- C1 witness: severity INFO (32) against threshold WARNING-ish 16 is
dropped; the gate characterisation holds at (16, 32). -/
theorem C1_severity_gate_witness :
    (reaches_reporting_path 16 32 = true ↔ ((16 : Int) ≤ 32 ∧ (32 : Int) ≠ AV_LOG_QUIET)) ∧
    (plex_log_callback 16 ⟨[], false⟩ 32 ['x', '\n']).submissions = [] :=
  ⟨(C1_severity_gate 16 32).1,
    (C1_severity_gate 32 16).2 (by decide) ⟨[], false⟩ ['x', '\n']⟩

/-- C3: severities at the internal error level (16) or more severe map to
the Reporter's ERROR level; less severe ones map to `L / 8 - 2` (C
truncating division). -/
theorem C3_severity_mapping (L : Int) :
    (L ≤ AV_LOG_ERROR → plex_map_level L = LOG_LEVEL_ERROR) ∧
    (AV_LOG_ERROR < L → plex_map_level L = L.tdiv 8 - 2) := by
  constructor
  · intro h
    rcases lt_or_eq_of_le h with h' | h'
    · rw [plex_map_level, if_pos h']
    · subst h'
      decide
  · intro h
    rw [plex_map_level, if_neg (not_lt.mpr h.le)]

/-- C3 witness: the boundary level 16 maps to ERROR (= 0), and WARNING
(24) maps to 24/8 - 2 = 1. -/
theorem C3_severity_mapping_witness :
    plex_map_level 16 = LOG_LEVEL_ERROR ∧ plex_map_level 24 = Int.tdiv 24 8 - 2 :=
  ⟨(C3_severity_mapping 16).1 (by decide), (C3_severity_mapping 24).2 (by decide)⟩

/-- C2 (amended): for fragments of a single line (no terminator) followed
by a completing fragment, all at a passing severity with reporting
enabled, nothing is submitted until the completing fragment, which causes
exactly one submission whose message is the concatenation of all the
fragments with the trailing terminator removed, leaving the buffer empty
— provided the whole line fits in the fixed buffer (at most
`LOG_LINE_SIZE - 1` characters); longer lines are silently truncated
(see the counterexample). -/
theorem C2_line_aggregation (T lvl : Int) (fs : List (List Char)) (g : List Char)
    (hlvl : lvl ≤ T) (hq : T ≠ AV_LOG_QUIET)
    (hfs : ∀ f ∈ fs, '\n' ∉ f) (hg : g.getLast? = some '\n')
    (hfit : (fs.flatten ++ g).length ≤ LOG_LINE_SIZE - 1) :
    run_callbacks T ⟨[], false⟩ (fs.map (fun f => (lvl, f)) ++ [(lvl, g)]) =
      ([(plex_map_level lvl, (fs.flatten ++ g).dropLast)], ⟨[], false⟩) := by
  have hflat : (([] : List Char) ++ fs.flatten).length ≤ LOG_LINE_SIZE - 1 := by
    simp only [List.nil_append]
    simp only [List.length_append] at hfit
    omega
  rw [run_callbacks_append, run_callbacks_fragments T lvl hlvl fs [] hfs hflat]
  have hfitg : (fs.flatten ++ g).length ≤ LOG_LINE_SIZE - 1 := hfit
  simp only [List.nil_append, run_callbacks,
    plex_log_callback_newline T lvl fs.flatten g hlvl hg hfitg]
  simp [PMS_Log, hq]

set_option maxRecDepth 100000 in
/-- C2 counterexample: the claim as stated (no length bound) fails. A
1000-character fragment followed by a 500-character completing fragment
overflows the 1024-byte buffer: `av_strlcat` truncates to 1023 stored
characters (losing the terminator among others), and the submission then
strips a real character, so the submitted message is not the
concatenation with the terminator removed. -/
theorem C2_line_aggregation_counterexample :
    (run_callbacks 32 ⟨[], false⟩
        [(32, List.replicate 1000 'a'), (32, List.replicate 499 'a' ++ ['\n'])]).1 ≠
      [(plex_map_level 32,
        (List.replicate 1000 'a' ++ (List.replicate 499 'a' ++ ['\n'])).dropLast)] := by
  decide

/-- C2 witness: fragments "hi" then "!\n" at severity 32 against
threshold 32 submit exactly one message "hi!". -/
theorem C2_line_aggregation_witness :
    run_callbacks 32 ⟨[], false⟩
        ([['h', 'i']].map (fun f => ((32 : Int), f)) ++ [((32 : Int), ['!', '\n'])]) =
      ([(plex_map_level 32, ([['h', 'i']].flatten ++ ['!', '\n']).dropLast)],
        ⟨[], false⟩) :=
  C2_line_aggregation 32 32 [['h', 'i']] ['!', '\n'] (by decide) (by decide)
    (by decide) (by decide) (by decide)

/-- C6: the per-thread buffer content never exceeds the fixed capacity
(1023 characters plus the NUL), across any sequence of hook invocations
and after any single invocation. -/
theorem C6_buffer_capacity (T : Int) (st : ThreadLogState)
    (evs : List (Int × List Char))
    (h : st.cur_line.length ≤ LOG_LINE_SIZE - 1) :
    (run_callbacks T st evs).2.cur_line.length ≤ LOG_LINE_SIZE - 1 ∧
    ∀ (level : Int) (frag : List Char),
      (plex_log_callback T st level frag).state.cur_line.length ≤ LOG_LINE_SIZE - 1 := by
  have hstep : ∀ (s : ThreadLogState) (level : Int) (frag : List Char),
      s.cur_line.length ≤ LOG_LINE_SIZE - 1 →
      (plex_log_callback T s level frag).state.cur_line.length ≤ LOG_LINE_SIZE - 1 := by
    intro s level frag hs
    unfold plex_log_callback
    dsimp only
    split_ifs <;> simp_all [av_strlcat_length s.cur_line frag hs]
  refine ⟨?_, fun level frag => hstep st level frag h⟩
  induction evs generalizing st with
  | nil => exact h
  | cons e rest ih =>
    obtain ⟨l, f⟩ := e
    exact ih (plex_log_callback T st l f).state (hstep st l f h)

/-- C6 witness: a 2000-character fragment appended to an empty buffer
leaves at most 1023 stored characters. -/
theorem C6_buffer_capacity_witness :
    (run_callbacks 32 ⟨[], false⟩ [(32, List.replicate 2000 'a')]).2.cur_line.length ≤
      LOG_LINE_SIZE - 1 :=
  (C6_buffer_capacity 32 ⟨[], false⟩ [(32, List.replicate 2000 'a')] (by decide)).1

/-- C4: a re-entrant call into the HTTP Reporter (per-thread `using_http`
flag already set) returns NULL at once with no network operation and no
change to the shared connection state; likewise a re-entrant log event
(per-thread `logging` flag already set) yields no submission and leaves
the thread's aggregation state untouched. -/
theorem C4_reentrancy_noop (st : HttpState) (o : HttpOracle) (T level : Int)
    (buf frag : List Char) :
    PMS_IssueHttpRequest true st o = (none, st, []) ∧
    (plex_log_callback T ⟨buf, true⟩ level frag).submissions = [] ∧
    (plex_log_callback T ⟨buf, true⟩ level frag).state = ⟨buf, true⟩ := by
  refine ⟨rfl, ?_, ?_⟩ <;> (unfold plex_log_callback; split_ifs <;> simp_all)

/-- C7: every log event is forwarded to the default log sink, whatever
the threshold or aggregation state, and the sink output is identical
across any two reporting configurations. -/
theorem C7_default_sink_unconditional (T T' : Int) (st st' : ThreadLogState)
    (level : Int) (frag : List Char) :
    (plex_log_callback T st level frag).sink = [(level, frag)] ∧
    (plex_log_callback T st level frag).sink =
      (plex_log_callback T' st' level frag).sink := by
  have h : ∀ (T₀ : Int) (s : ThreadLogState),
      (plex_log_callback T₀ s level frag).sink = [(level, frag)] := by
    intro T₀ s
    unfold plex_log_callback
    dsimp only
    split_ifs <;> rfl
  exact ⟨h T st, (h T st).trans (h T' st').symm⟩

/-- C8: an audio or video stream whose decoded-frame count is zero causes
`plex_report_stream_detail` to return without issuing a request. -/
theorem C8_zero_frames_no_request (url : Option (List Char)) (st : AVStream)
    (htype : st.codec_type = AVMediaType.audio ∨ st.codec_type = AVMediaType.video)
    (hframes : st.codec_info_nb_frames_total = 0) :
    plex_report_stream_detail url st = false := by
  rcases htype with h | h <;> simp [plex_report_stream_detail, h, hframes]

/-- C8 witness: a video stream with zero decoded frames and a configured
URL issues nothing. -/
theorem C8_zero_frames_no_request_witness :
    plex_report_stream_detail (some ['u']) ⟨AVMediaType.video, 0, 0⟩ = false :=
  C8_zero_frames_no_request (some ['u']) ⟨AVMediaType.video, 0, 0⟩ (Or.inr rfl) rfl

/-- C9: a stream disposed as an attached picture triggers a request from
neither `plex_report_stream` nor `plex_report_stream_detail`. -/
theorem C9_attached_pic_no_request (url : Option (List Char)) (st : AVStream)
    (h : st.disposition &&& AV_DISPOSITION_ATTACHED_PIC ≠ 0) :
    plex_report_stream url st = false ∧ plex_report_stream_detail url st = false := by
  constructor
  · simp [plex_report_stream, h]
  · unfold plex_report_stream_detail
    split_ifs <;> simp [h]

/-- C9 witness: an audio stream with the attached-pic bit (1 << 10) set
issues nothing from either notifier. -/
theorem C9_attached_pic_no_request_witness :
    plex_report_stream (some ['u']) ⟨AVMediaType.audio, 1024, 5⟩ = false ∧
    plex_report_stream_detail (some ['u']) ⟨AVMediaType.audio, 1024, 5⟩ = false :=
  C9_attached_pic_no_request (some ['u']) ⟨AVMediaType.audio, 1024, 5⟩ (by decide)

/-- C5 counterexample: the claim as stated fails for the write (reuse)
step. With a stored connection whose reuse request fails, the stale
connection is discarded but a fresh one is opened within the same call;
when the fresh open and the read succeed, the call returns a non-null
reply and leaves the fresh connection stored — not the claimed null
result. -/
theorem C5_failure_teardown_counterexample :
    (PMS_IssueHttpRequest false ⟨some 0, 1⟩ ⟨false, true, 100, true, 10⟩).1 ≠ none ∧
    PMS_IssueHttpRequest false ⟨some 0, 1⟩ ⟨false, true, 100, true, 10⟩ =
      (some 10, ⟨some 1, 2⟩, [NetOp.reuse 0, NetOp.openConn 1, NetOp.read 1]) := by
  constructor
  · decide
  · decide

/-- C5 (amended): a connection-open or read failure tears the stored
handle down before returning and yields a null result, with no retry of
the request; every null-returning invocation leaves no stored handle; a
write (reuse) failure discards only the stale connection and a fresh one
is opened within the same call; and an invocation that starts with no
stored handle never attempts reuse, so the call after a failure opens
fresh. -/
theorem C5_failure_teardown (st : HttpState) (o : HttpOracle) :
    ((PMS_IssueHttpRequest false st o).1 = none →
      (PMS_IssueHttpRequest false st o).2.1.ioctx = none) ∧
    (o.readRet < 0 → (PMS_IssueHttpRequest false st o).1 = none ∧
      (PMS_IssueHttpRequest false st o).2.1.ioctx = none) ∧
    ((st.ioctx = none ∨ o.reuseOk = false) → o.openOk = false →
      (PMS_IssueHttpRequest false st o).1 = none ∧
        (PMS_IssueHttpRequest false st o).2.1.ioctx = none) ∧
    (st.ioctx = none → ∀ c, NetOp.reuse c ∉ (PMS_IssueHttpRequest false st o).2.2) ∧
    (∀ c, st.ioctx = some c → o.reuseOk = false → o.openOk = true →
      NetOp.openConn st.nextConn ∈ (PMS_IssueHttpRequest false st o).2.2) := by
  obtain ⟨io, next⟩ := st
  obtain ⟨reuseOk, openOk, ioSize, mallocOk, readRet⟩ := o
  rcases io with _ | c <;> rcases reuseOk <;> rcases openOk <;> rcases mallocOk <;>
    simp only [PMS_IssueHttpRequest, http_request_body, Bool.not_true, Bool.not_false,
      if_true, if_false, Bool.false_eq_true, Bool.true_eq_false] <;>
    first
      | (split_ifs <;> simp_all)
      | simp_all

/-- C5 witness: a read failure on a reused connection returns null and
leaves no stored handle. -/
theorem C5_failure_teardown_witness :
    (PMS_IssueHttpRequest false ⟨some 4, 5⟩ ⟨true, true, -1, true, -5⟩).1 = none ∧
    (PMS_IssueHttpRequest false ⟨some 4, 5⟩ ⟨true, true, -1, true, -5⟩).2.1.ioctx = none := by
  have h := C5_failure_teardown ⟨some 4, 5⟩ ⟨true, true, -1, true, -5⟩
  exact ⟨(h.2.1 (by decide)).1, (h.2.1 (by decide)).2⟩

end Plex

namespace WebVTT

/-- C10: `webvtt_write_header` returns `AVERROR(EINVAL)` exactly when the
muxer context does not hold exactly one WebVTT stream; otherwise it
returns 0 and writes `WEBVTT`, the `X-TIMESTAMP-MAP` line built from the
`sync_vtt` (default 0) and `sync_mpeg` (default 900000) options, and a
blank separator line; and the timestamp is printed with the hours field
present even when it is zero. -/
theorem C10_webvtt_header (streams : List AVCodecID) (priv : WebVTTMuxContext) :
    ((webvtt_write_header streams priv).1 = AVERROR_EINVAL ↔
      streams ≠ [AVCodecID.webvtt]) ∧
    (streams = [AVCodecID.webvtt] →
      webvtt_write_header streams priv =
        (0, "WEBVTT\n" ++ "X-TIMESTAMP-MAP=LOCAL:" ++ webvtt_write_time priv.sync_vtt_ms
            ++ ",MPEGTS:" ++ intPad 2 priv.sync_mpeg ++ "\n" ++ "\n")) ∧
    webvtt_default_context = ⟨0, 900000⟩ ∧
    (∀ ms : Int, 0 ≤ ms → ms < 3600000 →
      ∃ rest : String, webvtt_write_time ms = "00:" ++ rest) := by
  refine ⟨?_, ?_, rfl, ?_⟩
  · rcases streams with _ | ⟨a, _ | ⟨b, t⟩⟩
    · simp [webvtt_write_header, AVERROR_EINVAL]
    · by_cases ha : a = AVCodecID.webvtt
      · subst ha
        simp [webvtt_write_header, AVERROR_EINVAL]
      · simp [webvtt_write_header, AVERROR_EINVAL, ha]
    · simp [webvtt_write_header, AVERROR_EINVAL]
  · intro hs
    subst hs
    simp [webvtt_write_header]
  · intro ms h0 hlt
    obtain ⟨n, rfl⟩ : ∃ n : Nat, ms = Int.ofNat n := ⟨ms.toNat, (Int.toNat_of_nonneg h0).symm⟩
    have hn : n < 3600000 := by
      rw [Int.ofNat_eq_natCast] at hlt
      omega
    have hdiv : n / 1000 / 60 / 60 = 0 := by omega
    have htd : (Int.ofNat n).tdiv 1000 = Int.ofNat (n / 1000) := rfl
    have htd2 : (Int.ofNat (n / 1000)).tdiv 60 = Int.ofNat (n / 1000 / 60) := rfl
    have htd3 : (Int.ofNat (n / 1000 / 60)).tdiv 60 = Int.ofNat (n / 1000 / 60 / 60) := rfl
    refine ⟨intPad 2 (Int.ofNat (n / 1000 / 60) -
        60 * Int.ofNat (n / 1000 / 60 / 60)) ++ ":" ++
        intPad 2 (Int.ofNat (n / 1000) - 60 * Int.ofNat (n / 1000 / 60)) ++ "." ++
        intPad 3 (Int.ofNat n - 1000 * Int.ofNat (n / 1000)), ?_⟩
    unfold webvtt_write_time
    simp only [htd, htd2, htd3, hdiv]
    rw [show intPad 2 (Int.ofNat 0) = "00" from rfl]
    rw [show ("00" ++ ":" : String) = "00:" from by decide]
    simp [String.append_assoc]

/-- C10 witness: the default options produce the documented header for a
single WebVTT stream, and a 1-second timestamp still carries the zero
hours field. -/
theorem C10_webvtt_header_witness :
    webvtt_write_header [AVCodecID.webvtt] webvtt_default_context =
      (0, "WEBVTT\n" ++ "X-TIMESTAMP-MAP=LOCAL:" ++ webvtt_write_time 0
          ++ ",MPEGTS:" ++ intPad 2 900000 ++ "\n" ++ "\n") ∧
    (∃ rest : String, webvtt_write_time 1000 = "00:" ++ rest) :=
  ⟨(C10_webvtt_header [AVCodecID.webvtt] webvtt_default_context).2.1 rfl,
    (C10_webvtt_header [AVCodecID.webvtt] webvtt_default_context).2.2.2 1000
      (by decide) (by decide)⟩

end WebVTT
